import Mathlib

/-!
# Verification of the book-enrichment pipeline (PythonBooksScraping.py)

Shallow embedding of the core of the repository: the source adapters
(Google Books primary, Goodreads and WorldCat fallbacks), the per-query
orchestrator `get_book_data`, and the incremental merge engine
`process_books`.

External effects are modelled as explicit inputs:
* the outcome of each HTTP request (transport error / status / parsed body)
  is a value of an `HttpOutcome`-style type supplied by the environment;
* the HTML parser's extraction (CSS-selector matches, element texts, regex
  matches over element text) is supplied as already-parsed item lists —
  element texts are modelled post-`strip()`;
* Python's `float()` applied to a scraped rating string is an
  environment-supplied partial function (`none` models `ValueError`);
* the interactive prompt is a `Decision` value (cancelled, or a positional
  pick).

Machine floats (`rating`) are carried but never computed with, so they are
modelled as `Rat`.
-/

namespace BooksScraping

/-- `CONFIG['MAX_RESULTS_PER_SOURCE']`. -/
def MAX_RESULTS_PER_SOURCE : Nat := 3

/-- `CONFIG['RATE_LIMIT_DELAY']` (seconds). -/
def RATE_LIMIT_DELAY : Nat := 1

/-- The `BookData` dataclass, with the source's field defaults. -/
structure BookData where
  book_name : String
  isbn : String
  authors : String := ""
  publisher : String := ""
  year : String := ""
  pages : Nat := 0
  rating : Rat := 0
  url : String := ""
  source : String := "google"

deriving instance DecidableEq, Repr for BookData

/-- Outcome of one HTTP request: an exception anywhere inside the adapter's
`try` block before the per-item loop (transport error, `response.text()`
failure, parser failure), or a response with a status code and a parsed
body. -/
inductive HttpOutcome (α : Type) where
  | exn
  | resp (status : Nat) (body : α)

deriving instance DecidableEq, Repr for HttpOutcome

/-- A parsed HTML element: its (stripped) text and optional `href`
attribute. -/
structure Elem where
  text : String
  href : Option String := none

deriving instance DecidableEq, Repr for Elem

/-- One row matched by the Goodreads `table_rows` selector.
`title`/`author` model `select_one` on the title/author selectors (`none`
also covers an empty, hence falsy, tag); `yearText` models the outcome of
`re.search(r'published (\d{4})', ...)` over the row text (the captured
group); `ratingText` is the rating element's stripped text when the
element is present. -/
structure GoodreadsItem where
  title : Option Elem := none
  author : Option String := none
  yearText : Option String := none
  ratingText : Option String := none

deriving instance DecidableEq, Repr for GoodreadsItem

/-- The body of the loop over Goodreads rows.  An exception anywhere in the
loop (`float()` raising `ValueError`, `title_elem['href']` raising
`KeyError`) aborts `search`, whose `except` clause discards all rows
collected so far; this is the `Except.error` case. -/
def goodreadsRows (fp : String → Option Rat) (isbn : String) :
    List GoodreadsItem → Except Unit (List BookData)
  | [] => .ok []
  | item :: rest =>
    match item.title, item.author with
    | some t, some a =>
      match (match item.ratingText with
             | some s =>
               match fp s with
               | some r => Except.ok r
               | none => Except.error ()
             | none => Except.ok (0 : Rat)) with
      | .error e => .error e
      | .ok rating =>
        match t.href with
        | none => .error ()
        | some h =>
          match goodreadsRows fp isbn rest with
          | .error e => .error e
          | .ok tail =>
            .ok ({ book_name := t.text, isbn := isbn, authors := a,
                   year := item.yearText.getD "", rating := rating,
                   url := "https://www.goodreads.com" ++ h,
                   source := "goodreads" } :: tail)
    | _, _ => goodreadsRows fp isbn rest

namespace GoodreadsSource

/-- `GoodreadsSource.search`.  `book_name` only feeds the request URL, which
the environment already accounts for. -/
def search (fp : String → Option Rat) (env : HttpOutcome (List GoodreadsItem))
    (book_name isbn : String) : List BookData :=
  match env with
  | .exn => []
  | .resp status items =>
    if status ≠ 200 then []
    else
      match goodreadsRows fp isbn (items.take MAX_RESULTS_PER_SOURCE) with
      | .ok rs => rs
      | .error _ => []

end GoodreadsSource

/-- The publisher element of a WorldCat item: its stripped text and the
outcome of `re.search(r'\b(19|20)\d{2}\b', ...)` over that text. -/
structure WCPublisher where
  text : String
  yearMatch : Option String := none

deriving instance DecidableEq, Repr for WCPublisher

/-- One item matched by the WorldCat `items` selector. -/
structure WorldCatItem where
  title : Option Elem := none
  author : Option String := none
  publisher : Option WCPublisher := none

deriving instance DecidableEq, Repr for WorldCatItem

/-- The record built for one WorldCat item whose title element is present.
The year stays at its default unless the publisher element is present and
the year regex matched inside it; `title_elem.get('href')` is tested for
truthiness, so an absent and an empty href both give an empty url. -/
def worldcatBook (isbn : String) (t : Elem) (item : WorldCatItem) : BookData :=
  { book_name := t.text, isbn := isbn,
    authors := (item.author).getD "",
    publisher := (item.publisher.map WCPublisher.text).getD "",
    year := (item.publisher.bind WCPublisher.yearMatch).getD "",
    pages := 0, rating := 0,
    url := match t.href with
           | some h => if h.isEmpty then "" else "https://www.worldcat.org" ++ h
           | none => "",
    source := "worldcat" }

/-- The loop over WorldCat items.  No expression in this loop can raise, so
it is total. -/
def worldcatRows (isbn : String) : List WorldCatItem → List BookData
  | [] => []
  | item :: rest =>
    match item.title with
    | none => worldcatRows isbn rest
    | some t => worldcatBook isbn t item :: worldcatRows isbn rest

namespace WorldCatSource

/-- `WorldCatSource.search`. -/
def search (env : HttpOutcome (List WorldCatItem))
    (book_name isbn : String) : List BookData :=
  match env with
  | .exn => []
  | .resp status items =>
    if status ≠ 200 then []
    else worldcatRows isbn (items.take MAX_RESULTS_PER_SOURCE)

end WorldCatSource

/-- `volumeInfo` of the first Google Books item.  Each field models
`info.get(key, default)`. -/
structure VolumeInfo where
  title : Option String := none
  authors : Option (List String) := none
  publisher : Option String := none
  publishedDate : Option String := none
  pageCount : Option Nat := none
  averageRating : Option Rat := none

deriving instance DecidableEq, Repr for VolumeInfo

/-- One element of the Google Books `items` array.  A missing
`"volumeInfo"` key raises `KeyError`, caught by the adapter. -/
structure GoogleItem where
  volumeInfo : Option VolumeInfo := none
  selfLink : Option String := none

deriving instance DecidableEq, Repr for GoogleItem

/-- Parsed JSON body of the Google Books response.  A missing `"items"` key
raises `KeyError` exactly like an empty array raises `IndexError`; both are
modelled by `items = []`. -/
structure GoogleBody where
  totalItems : Nat := 0
  items : List GoogleItem := []

deriving instance DecidableEq, Repr for GoogleBody

namespace BookEnricher

/-- `BookEnricher.fetch_google_books`. -/
def fetch_google_books (env : HttpOutcome GoogleBody) (isbn : String) :
    Option BookData :=
  match env with
  | .exn => none
  | .resp status body =>
    if status ≠ 200 then none
    else if body.totalItems = 0 then none
    else
      match body.items with
      | [] => none
      | v :: _ =>
        match v.volumeInfo with
        | none => none
        | some info =>
          some { book_name := info.title.getD "",
                 isbn := isbn,
                 authors := String.intercalate ", " (info.authors.getD []),
                 publisher := info.publisher.getD "",
                 year := (info.publishedDate.getD "").take 4,
                 pages := info.pageCount.getD 0,
                 rating := info.averageRating.getD 0,
                 url := v.selfLink.getD "",
                 source := "google" }

end BookEnricher

/-- The answer of the `inquirer` choice prompt: the prompt may be cancelled
(`inquirer.prompt` returns `None`) or return the value at the picked
position of the choice list. -/
inductive Decision where
  | cancelled
  | pick (i : Nat)

deriving instance DecidableEq, Repr for Decision

/-- Observable steps of one `get_book_data` call, in order. -/
inductive Event where
  | primaryCall
  | fallbackCall (source : String)
  | sleep (seconds : Nat)
  | promptShown (choices : List String)

deriving instance DecidableEq, Repr for Event

/-- The whole external environment one `get_book_data` call consumes. -/
structure Env where
  google : HttpOutcome GoogleBody := .exn
  goodreads : HttpOutcome (List GoodreadsItem) := .exn
  worldcat : HttpOutcome (List WorldCatItem) := .exn
  floatOfString : String → Option Rat := fun _ => none
  decision : Decision := .cancelled

/-- The human-readable summary line of one candidate in the choice
prompt (`f"{b.book_name} by {b.authors} ({b.year}) - from {b.source}"`). -/
def choiceLine (b : BookData) : String :=
  b.book_name ++ " by " ++ b.authors ++ " (" ++ b.year ++ ") - from " ++ b.source

namespace BookEnricher

/-- The `all_results` accumulator of `get_book_data`: the fallback loop
`for source in self.sources` extends it with each adapter's results in the
fixed order `[GoodreadsSource, WorldCatSource]`. -/
def all_results (env : Env) (book_name isbn : String) : List BookData :=
  GoodreadsSource.search env.floatOfString env.goodreads book_name isbn ++
  WorldCatSource.search env.worldcat book_name isbn

/-- The trace of the fallback loop: each adapter call is followed by its
`asyncio.sleep(CONFIG['RATE_LIMIT_DELAY'])`. -/
def fallbackTrace : List Event :=
  [.primaryCall,
   .fallbackCall "goodreads", .sleep RATE_LIMIT_DELAY,
   .fallbackCall "worldcat", .sleep RATE_LIMIT_DELAY]

/-- `BookEnricher.get_book_data`, returning the resolved record (`none` is
"skip") together with the trace of observable steps. -/
def get_book_data (env : Env) (book_name isbn : String) :
    Option BookData × List Event :=
  match fetch_google_books env.google isbn with
  | some book => (some book, [.primaryCall])
  | none =>
    let results := all_results env book_name isbn
    if results.isEmpty then (none, fallbackTrace)
    else
      let choices := results.map choiceLine ++ ["Skip this book"]
      match env.decision with
      | .cancelled => (none, fallbackTrace ++ [.promptShown choices])
      | .pick i =>
        ((results.map some ++ [none]).getD i none,
         fallbackTrace ++ [.promptShown choices])

end BookEnricher

/-- A pandas cell of the `isbn` column: read back from a file it may be a
string or (for all-digit columns) an integer.  `astype(str)` maps both to
their text. -/
inductive Cell where
  | str (s : String)
  | intVal (n : Int)

deriving instance DecidableEq, Repr for Cell

/-- `Series.astype(str)` on one cell. -/
def Cell.astype_str : Cell → String
  | .str s => s
  | .intVal n => toString n

/-- One row of the input frame (the two required columns; other columns are
ignored by the pipeline). -/
structure InRow where
  book_name : String
  isbn : Cell

deriving instance DecidableEq, Repr for InRow

/-- One row of the output frame.  Fresh rows come from `asdict(BookData)`;
re-read rows may carry the isbn as an integer cell.  We model the write /
read round trip as preserving each cell's text (column re-typing that
preserves `astype(str)` is invisible to the pipeline). -/
structure OutRow where
  book_name : String
  isbn : Cell
  authors : String
  publisher : String
  year : String
  pages : Nat
  rating : Rat
  url : String
  source : String

deriving instance DecidableEq, Repr for OutRow

/-- `asdict(book)` appended to the output frame. -/
def BookData.toOutRow (b : BookData) : OutRow :=
  { book_name := b.book_name, isbn := .str b.isbn, authors := b.authors,
    publisher := b.publisher, year := b.year, pages := b.pages,
    rating := b.rating, url := b.url, source := b.source }

/-- `df_out['isbn'].astype(str).isin(...)` membership test for one input
identifier. -/
def ledgerHas (df_out : List OutRow) (s : String) : Bool :=
  df_out.any fun o => o.isbn.astype_str == s

/-- Line 360: `df_in[~df_in['isbn'].astype(str).isin(df_out['isbn'].astype(str))]`. -/
def new_books (df_in : List InRow) (df_out : List OutRow) : List InRow :=
  df_in.filter fun r => !ledgerHas df_out r.isbn.astype_str

/-- Per-query environments for a whole run: the external world's reaction to
processing a given `(book_name, isbn)` query.  A fixed oracle models "the
same run repeated". -/
abbrev Oracle : Type := String → String → Env

namespace BookEnricher

/-- The accumulator loop of `process_books`: `results.append(asdict(book))`
only when `get_book_data` returned a record. -/
def runResults (oracle : Oracle) (rows : List InRow) : List BookData :=
  rows.filterMap fun r =>
    (get_book_data (oracle r.book_name r.isbn.astype_str)
      r.book_name r.isbn.astype_str).1

/-- How a `process_books` call ends. -/
inductive RunOutcome where
  | readError
  | crash
  | noWrite
  | wrote (newFile : List OutRow)

deriving instance DecidableEq, Repr for RunOutcome

/-- `BookEnricher.process_books`.  `df_in` is the successfully read and
validated input frame.  `outFile` is the state of the output file: `none`
when `out_path.exists()` is false, in which case `df_out = pd.DataFrame()`
has no columns and `df_out['isbn']` on line 360 raises an uncaught
`KeyError` (`crash`).  A present but unreadable/invalid output file makes
`FileHandler.read_file` raise inside the `try`, an early return
(`readError`, modelled by the caller choosing `readFails`). -/
def process_books (oracle : Oracle) (df_in : List InRow)
    (readFails : Bool) (outFile : Option (List OutRow)) : RunOutcome :=
  if readFails then .readError
  else
    match outFile with
    | none => .crash
    | some df_out =>
      let pending := new_books df_in df_out
      if pending.isEmpty then .noWrite
      else
        let results := runResults oracle pending
        if results.isEmpty then .noWrite
        else .wrote (df_out ++ results.map BookData.toOutRow)

/-- The output file's state after one run (unchanged unless the run reaches
the final write). -/
def fileAfter (oracle : Oracle) (df_in : List InRow)
    (outFile : Option (List OutRow)) : Option (List OutRow) :=
  match process_books oracle df_in false outFile with
  | .wrote f => some f
  | _ => outFile

end BookEnricher

/-! ## Concrete fixtures used to instantiate the theorems -/

/-- The environment in which every request fails at transport level. -/
def envAllMiss : Env := {}

/-- An oracle under which every query's environment is `envAllMiss`. -/
def oracle0 : Oracle := fun _ _ => envAllMiss

/-- A well-populated `volumeInfo`. -/
def volOrwell : VolumeInfo :=
  { title := some "1984", authors := some ["George Orwell"],
    publishedDate := some "1949-06-08" }

/-- A Google Books response with one well-populated volume. -/
def envPrimaryHit : Env :=
  { google := .resp 200
      { totalItems := 1,
        items := [{ volumeInfo := some volOrwell, selfLink := some "selfLink" }] } }

/-- The record `fetch_google_books` builds from `envPrimaryHit`. -/
def bookPrimary (isbn : String) : BookData :=
  { book_name := "1984", isbn := isbn, authors := "George Orwell",
    year := "1949", url := "selfLink", source := "google" }

/-- One fully-populated Goodreads result row. -/
def grItem1 : GoodreadsItem :=
  { title := some { text := "Nineteen Eighty-Four", href := some "/book/show/5470" },
    author := some "George Orwell", yearText := some "1949", ratingText := none }

/-- Primary miss; Goodreads returns one row; the operator picks choice 0. -/
def envFallback : Env :=
  { goodreads := .resp 200 [grItem1], decision := .pick 0 }

/-- The candidate `GoodreadsSource.search` builds from `grItem1`. -/
def bookFallback (isbn : String) : BookData :=
  { book_name := "Nineteen Eighty-Four", isbn := isbn, authors := "George Orwell",
    year := "1949", url := "https://www.goodreads.com/book/show/5470",
    source := "goodreads" }

/-- An input row whose query every adapter misses under `oracleDup`. -/
def rowSkip : InRow := { book_name := "a", isbn := .str "1" }

/-- An input row sharing `rowSkip`'s identifier but resolving under
`oracleDup`. -/
def rowHit : InRow := { book_name := "b", isbn := .str "1" }

/-- A minimal Google Books hit (all volume fields defaulted). -/
def envHit1 : Env :=
  { google := .resp 200
      { totalItems := 1, items := [{ volumeInfo := some ({} : VolumeInfo) }] } }

/-- Oracle resolving `rowHit` from the primary source and missing
everywhere for every other query. -/
def oracleDup : Oracle := fun bn _ => if bn = "b" then envHit1 else envAllMiss

/-- The record `fetch_google_books` builds from `envHit1` for isbn "1". -/
def bookHit1 : BookData := { book_name := "", isbn := "1" }

/-- The title element of `wcItem1`. -/
def wcTitle1 : Elem := { text := "Animal Farm", href := some "/title/9" }

/-- One fully-populated WorldCat result item. -/
def wcItem1 : WorldCatItem :=
  { title := some wcTitle1, author := some "George Orwell",
    publisher := some { text := "Secker 1945", yearMatch := some "1945" } }

/-! ## Adapter lemmas -/

theorem goodreadsRows_isbn (fp : String → Option Rat) (i : String) :
    ∀ (items : List GoodreadsItem) (rs : List BookData),
      goodreadsRows fp i items = .ok rs → ∀ b ∈ rs, b.isbn = i := by
  intro items
  induction items with
  | nil =>
    intro rs h b hb
    simp only [goodreadsRows] at h
    cases h
    simp at hb
  | cons item rest ih =>
    intro rs h b hb
    simp only [goodreadsRows] at h
    split at h
    · split at h
      · simp at h
      · split at h
        · simp at h
        · split at h
          · simp at h
          · rename_i tail heq
            simp only [Except.ok.injEq] at h
            subst h
            rcases List.mem_cons.mp hb with hb1 | hb2
            · subst hb1; rfl
            · exact ih tail heq b hb2
    · exact ih rs h b hb

theorem goodreadsRows_length (fp : String → Option Rat) (i : String) :
    ∀ (items : List GoodreadsItem) (rs : List BookData),
      goodreadsRows fp i items = .ok rs → rs.length ≤ items.length := by
  intro items
  induction items with
  | nil =>
    intro rs h
    simp only [goodreadsRows] at h
    cases h
    exact Nat.le_refl 0
  | cons item rest ih =>
    intro rs h
    simp only [goodreadsRows] at h
    split at h
    · split at h
      · simp at h
      · split at h
        · simp at h
        · split at h
          · simp at h
          · rename_i tail heq
            simp only [Except.ok.injEq] at h
            subst h
            simpa using Nat.succ_le_succ (ih tail heq)
    · exact Nat.le_succ_of_le (ih rs h)

theorem goodreads_search_isbn (fp : String → Option Rat)
    (env : HttpOutcome (List GoodreadsItem)) (bn i : String) (b : BookData)
    (hb : b ∈ GoodreadsSource.search fp env bn i) : b.isbn = i := by
  cases env with
  | exn => simp [GoodreadsSource.search] at hb
  | resp status items =>
    simp only [GoodreadsSource.search] at hb
    split at hb
    · simp at hb
    · split at hb
      · rename_i rs heq
        exact goodreadsRows_isbn fp i _ rs heq b hb
      · simp at hb

theorem goodreads_search_length (fp : String → Option Rat)
    (env : HttpOutcome (List GoodreadsItem)) (bn i : String) :
    (GoodreadsSource.search fp env bn i).length ≤ MAX_RESULTS_PER_SOURCE := by
  cases env with
  | exn => simp [GoodreadsSource.search]
  | resp status items =>
    simp only [GoodreadsSource.search]
    split
    · simp
    · split
      · rename_i rs heq
        have h1 := goodreadsRows_length fp i _ rs heq
        have h2 : (items.take MAX_RESULTS_PER_SOURCE).length ≤ MAX_RESULTS_PER_SOURCE := by
          simp [List.length_take]
        exact Nat.le_trans h1 h2
      · simp

theorem worldcatRows_isbn (i : String) :
    ∀ (items : List WorldCatItem), ∀ b ∈ worldcatRows i items, b.isbn = i := by
  intro items
  induction items with
  | nil => intro b hb; simp [worldcatRows] at hb
  | cons item rest ih =>
    intro b hb
    simp only [worldcatRows] at hb
    split at hb
    · exact ih b hb
    · rcases List.mem_cons.mp hb with hb1 | hb2
      · subst hb1; rfl
      · exact ih b hb2

theorem worldcatRows_length (i : String) :
    ∀ (items : List WorldCatItem), (worldcatRows i items).length ≤ items.length := by
  intro items
  induction items with
  | nil => simp [worldcatRows]
  | cons item rest ih =>
    simp only [worldcatRows]
    split
    · exact Nat.le_succ_of_le ih
    · simpa using Nat.succ_le_succ ih

theorem worldcat_search_isbn (env : HttpOutcome (List WorldCatItem))
    (bn i : String) (b : BookData)
    (hb : b ∈ WorldCatSource.search env bn i) : b.isbn = i := by
  cases env with
  | exn => simp [WorldCatSource.search] at hb
  | resp status items =>
    simp only [WorldCatSource.search] at hb
    split at hb
    · simp at hb
    · exact worldcatRows_isbn i _ b hb

theorem worldcat_search_length (env : HttpOutcome (List WorldCatItem))
    (bn i : String) :
    (WorldCatSource.search env bn i).length ≤ MAX_RESULTS_PER_SOURCE := by
  cases env with
  | exn => simp [WorldCatSource.search]
  | resp status items =>
    simp only [WorldCatSource.search]
    split
    · simp
    · have h1 := worldcatRows_length i (items.take MAX_RESULTS_PER_SOURCE)
      have h2 : (items.take MAX_RESULTS_PER_SOURCE).length ≤ MAX_RESULTS_PER_SOURCE := by
        simp [List.length_take]
      exact Nat.le_trans h1 h2

theorem fetch_google_books_isbn (env : HttpOutcome GoogleBody) (i : String)
    (b : BookData) (h : BookEnricher.fetch_google_books env i = some b) :
    b.isbn = i := by
  cases env with
  | exn => simp [BookEnricher.fetch_google_books] at h
  | resp status body =>
    simp only [BookEnricher.fetch_google_books] at h
    split at h
    · simp at h
    · split at h
      · simp at h
      · split at h
        · simp at h
        · split at h
          · simp at h
          · simp only [Option.some.injEq] at h
            subst h
            rfl

/-- Positional selection from the prompt's value list picks a listed
candidate or the final `none`. -/
theorem mem_of_choice_getD {α : Type} :
    ∀ (l : List α) (i : Nat) (b : α),
      (l.map some ++ [none]).getD i none = some b → b ∈ l := by
  intro l
  induction l with
  | nil =>
    intro i b h
    cases i with
    | zero => simp [List.getD] at h
    | succ n => simp [List.getD] at h
  | cons x xs ih =>
    intro i b h
    cases i with
    | zero =>
      simp only [List.map_cons, List.cons_append, List.getD_cons_zero,
        Option.some.injEq] at h
      subst h
      exact List.mem_cons_self x xs
    | succ n =>
      simp only [List.map_cons, List.cons_append, List.getD_cons_succ] at h
      exact List.mem_cons_of_mem x (ih n b h)

/-! ## Orchestrator lemmas -/

theorem get_book_data_mem (env : Env) (bn i : String) (b : BookData)
    (h : (BookEnricher.get_book_data env bn i).1 = some b) :
    BookEnricher.fetch_google_books env.google i = some b ∨
      b ∈ BookEnricher.all_results env bn i := by
  simp only [BookEnricher.get_book_data] at h
  split at h
  · rename_i book heq
    simp at h
    subst h
    exact Or.inl heq
  · split at h
    · simp at h
    · split at h
      · simp at h
      · dsimp only at h
        exact Or.inr (mem_of_choice_getD _ _ _ h)

theorem get_book_data_isbn (env : Env) (bn i : String) (b : BookData)
    (h : (BookEnricher.get_book_data env bn i).1 = some b) : b.isbn = i := by
  rcases get_book_data_mem env bn i b h with hg | hm
  · exact fetch_google_books_isbn env.google i b hg
  · simp only [BookEnricher.all_results, List.mem_append] at hm
    rcases hm with h1 | h2
    · exact goodreads_search_isbn _ _ _ _ _ h1
    · exact worldcat_search_isbn _ _ _ _ h2

/-! ## Merge-engine lemmas -/

theorem ledgerHas_append (l1 l2 : List OutRow) (s : String) :
    ledgerHas (l1 ++ l2) s = (ledgerHas l1 s || ledgerHas l2 s) := by
  simp [ledgerHas, List.any_append]

theorem mem_new_books (df_in : List InRow) (df_out : List OutRow) (r : InRow) :
    r ∈ new_books df_in df_out ↔
      r ∈ df_in ∧ ledgerHas df_out r.isbn.astype_str = false := by
  simp [new_books, List.mem_filter]

theorem mem_runResults (oracle : Oracle) (rows : List InRow) (b : BookData) :
    b ∈ BookEnricher.runResults oracle rows ↔
      ∃ r ∈ rows,
        (BookEnricher.get_book_data (oracle r.book_name r.isbn.astype_str)
          r.book_name r.isbn.astype_str).1 = some b := by
  simp [BookEnricher.runResults, List.mem_filterMap]

theorem ledgerHas_of_mem (l : List BookData) (b : BookData) (hb : b ∈ l) :
    ledgerHas (l.map BookData.toOutRow) b.isbn = true := by
  simp only [ledgerHas, List.any_eq_true]
  refine ⟨BookData.toOutRow b, List.mem_map_of_mem _ hb, ?_⟩
  simp [BookData.toOutRow, Cell.astype_str]

theorem process_books_some (oracle : Oracle) (df_in : List InRow)
    (df_out : List OutRow) :
    BookEnricher.process_books oracle df_in false (some df_out) =
      (if (new_books df_in df_out).isEmpty then .noWrite
       else if (BookEnricher.runResults oracle (new_books df_in df_out)).isEmpty
         then .noWrite
       else .wrote (df_out ++
         (BookEnricher.runResults oracle (new_books df_in df_out)).map
           BookData.toOutRow)) := rfl

theorem fileAfter_none (oracle : Oracle) (df_in : List InRow) :
    BookEnricher.fileAfter oracle df_in none = none := rfl

/-- Every query still pending after a completed run yields no record under
the same oracle. -/
theorem pending_after_write_skips (oracle : Oracle) (df_in : List InRow)
    (df_out : List OutRow) :
    ∀ r ∈ new_books df_in
        (df_out ++ (BookEnricher.runResults oracle (new_books df_in df_out)).map
          BookData.toOutRow),
      (BookEnricher.get_book_data (oracle r.book_name r.isbn.astype_str)
        r.book_name r.isbn.astype_str).1 = none := by
  intro r hr
  rcases (mem_new_books _ _ _).mp hr with ⟨hin, hhas⟩
  rw [ledgerHas_append] at hhas
  simp only [Bool.or_eq_false_iff] at hhas
  obtain ⟨hh1, hh2⟩ := hhas
  by_contra hne
  rcases Option.ne_none_iff_exists'.mp hne with ⟨b, hb⟩
  have hmem : b ∈ BookEnricher.runResults oracle (new_books df_in df_out) :=
    (mem_runResults oracle _ b).mpr ⟨r, (mem_new_books _ _ _).mpr ⟨hin, hh1⟩, hb⟩
  have hisbn : b.isbn = r.isbn.astype_str :=
    get_book_data_isbn _ _ _ _ hb
  have htrue := ledgerHas_of_mem _ b hmem
  rw [hisbn] at htrue
  rw [htrue] at hh2
  cases hh2

/-- One run is a fixed point of the output file: a second identical run
changes nothing. -/
theorem fileAfter_fileAfter (oracle : Oracle) (df_in : List InRow)
    (f : Option (List OutRow)) :
    BookEnricher.fileAfter oracle df_in (BookEnricher.fileAfter oracle df_in f)
      = BookEnricher.fileAfter oracle df_in f := by
  cases f with
  | none => rfl
  | some df_out =>
    by_cases h1 : (new_books df_in df_out).isEmpty
    · have hp : BookEnricher.process_books oracle df_in false (some df_out)
          = .noWrite := by
        rw [process_books_some]; simp [h1]
      simp [BookEnricher.fileAfter, hp]
    · by_cases h2 :
        (BookEnricher.runResults oracle (new_books df_in df_out)).isEmpty
      · have hp : BookEnricher.process_books oracle df_in false (some df_out)
            = .noWrite := by
          rw [process_books_some]; simp [h1, h2]
        simp [BookEnricher.fileAfter, hp]
      · have hp : BookEnricher.process_books oracle df_in false (some df_out)
            = .wrote (df_out ++
              (BookEnricher.runResults oracle (new_books df_in df_out)).map
                BookData.toOutRow) := by
          rw [process_books_some]; simp [h1, h2]
        have hafter : BookEnricher.fileAfter oracle df_in (some df_out)
            = some (df_out ++
              (BookEnricher.runResults oracle (new_books df_in df_out)).map
                BookData.toOutRow) := by
          simp [BookEnricher.fileAfter, hp]
        rw [hafter]
        have hres2 : BookEnricher.runResults oracle
            (new_books df_in (df_out ++
              (BookEnricher.runResults oracle (new_books df_in df_out)).map
                BookData.toOutRow)) = [] := by
          simp only [BookEnricher.runResults]
          exact List.filterMap_eq_nil_iff.mpr
            (pending_after_write_skips oracle df_in df_out)
        have hp2 : BookEnricher.process_books oracle df_in false
            (some (df_out ++
              (BookEnricher.runResults oracle (new_books df_in df_out)).map
                BookData.toOutRow)) = .noWrite := by
          rw [process_books_some]
          by_cases h3 : (new_books df_in (df_out ++
              (BookEnricher.runResults oracle (new_books df_in df_out)).map
                BookData.toOutRow)).isEmpty
          · simp [h3]
          · simp [h3, hres2]
        simp [BookEnricher.fileAfter, hp2]

/-- A query missed by the primary adapter and every fallback adapter is
resolved as skip, with the bare fallback trace. -/
theorem get_book_data_skip (env : Env) (bn i : String)
    (h1 : BookEnricher.fetch_google_books env.google i = none)
    (h2 : GoodreadsSource.search env.floatOfString env.goodreads bn i = [])
    (h3 : WorldCatSource.search env.worldcat bn i = []) :
    BookEnricher.get_book_data env bn i = (none, BookEnricher.fallbackTrace) := by
  simp only [BookEnricher.get_book_data, h1]
  simp [BookEnricher.all_results, h2, h3]

/-- Dropping the copies of an element the function sends to `none` does not
change a `filterMap`. -/
theorem filterMap_filter_ne {α β : Type} [DecidableEq α] (f : α → Option β)
    (r : α) (hf : f r = none) :
    ∀ l : List α, (l.filter (fun x => x ≠ r)).filterMap f = l.filterMap f := by
  intro l
  induction l with
  | nil => rfl
  | cons x xs ih =>
    by_cases hx : x = r
    · subst hx
      rw [List.filter_cons, if_neg (by simp), ih, List.filterMap_cons, hf]
    · rw [List.filter_cons, if_pos (by simp [hx]), List.filterMap_cons,
        List.filterMap_cons, ih]

/-- A run behaves on the output file exactly as the run whose input lacks
every copy of a query that resolves to skip. -/
theorem fileAfter_erase_skip (oracle : Oracle) (r : InRow) (df_in : List InRow)
    (f : Option (List OutRow))
    (hr : (BookEnricher.get_book_data (oracle r.book_name r.isbn.astype_str)
      r.book_name r.isbn.astype_str).1 = none) :
    BookEnricher.fileAfter oracle df_in f
      = BookEnricher.fileAfter oracle (df_in.filter (fun x => x ≠ r)) f := by
  cases f with
  | none => rfl
  | some df_out =>
    have hpend : new_books (df_in.filter (fun x => x ≠ r)) df_out
        = (new_books df_in df_out).filter (fun x => x ≠ r) := by
      simp only [new_books, List.filter_filter]
      congr 1
      funext x
      exact Bool.and_comm _ _
    have hres : BookEnricher.runResults oracle
        ((new_books df_in df_out).filter (fun x => x ≠ r))
        = BookEnricher.runResults oracle (new_books df_in df_out) := by
      simp only [BookEnricher.runResults]
      exact filterMap_filter_ne _ r hr _
    simp only [BookEnricher.fileAfter, process_books_some, hpend, hres]
    by_cases h1 : (new_books df_in df_out).isEmpty
    · have h2 : ((new_books df_in df_out).filter (fun x => x ≠ r)).isEmpty = true := by
        rw [List.isEmpty_iff] at h1 ⊢
        rw [h1]
        rfl
      simp only [h1, h2]
    · rw [Bool.not_eq_true] at h1
      by_cases h2 : ((new_books df_in df_out).filter (fun x => x ≠ r)).isEmpty
      · have hR : BookEnricher.runResults oracle (new_books df_in df_out) = [] := by
          rw [← hres]
          rw [List.isEmpty_iff] at h2
          rw [h2]
          rfl
        have hRe : (BookEnricher.runResults oracle
            (new_books df_in df_out)).isEmpty = true := by
          rw [List.isEmpty_iff]
          exact hR
        simp only [h1, h2, hRe]
        rfl
      · rw [Bool.not_eq_true] at h2
        simp only [h1, h2]

/-- No record whose isbn is `s` is appended when every input row carrying
identifier `s` resolves to skip. -/
theorem ledgerHas_runResults_false (oracle : Oracle) (rows : List InRow)
    (s : String)
    (h : ∀ x ∈ rows, x.isbn.astype_str = s →
      (BookEnricher.get_book_data (oracle x.book_name x.isbn.astype_str)
        x.book_name x.isbn.astype_str).1 = none) :
    ledgerHas ((BookEnricher.runResults oracle rows).map BookData.toOutRow) s
      = false := by
  apply Bool.eq_false_iff.mpr
  intro htrue
  simp only [ledgerHas, List.any_eq_true] at htrue
  rcases htrue with ⟨o, ho, hbeq⟩
  rcases List.mem_map.mp ho with ⟨b, hb, rfl⟩
  rcases (mem_runResults oracle rows b).mp hb with ⟨x, hx, hget⟩
  have hisbn : b.isbn = x.isbn.astype_str := get_book_data_isbn _ _ _ _ hget
  have hbs : b.isbn = s := by
    simpa [BookData.toOutRow, Cell.astype_str] using hbeq
  rw [h x hx (hisbn.symm.trans hbs)] at hget
  cases hget

/-! ## Claims -/

/-- C1: the merge engine is meant to treat an absent output file as the
empty ledger and process every input query, but with `out_path.exists()`
false `df_out` is the columnless `pd.DataFrame()` and `df_out['isbn']` on
line 360 raises an uncaught `KeyError`: the run crashes before processing
anything, while the pending set of the empty ledger would have been the
whole input. -/
theorem C1_missing_output_file_crashes :
    BookEnricher.process_books oracle0 [rowSkip] false none
        = BookEnricher.RunOutcome.crash ∧
    new_books [rowSkip] [] = [rowSkip] :=
  ⟨rfl, rfl⟩

/-- C2: if the primary adapter returns a candidate for the query (it
returns at most one), `get_book_data` returns exactly that candidate, and
its trace holds no fallback-adapter call and no disambiguation prompt. -/
theorem C2_primary_short_circuit (env : Env) (bn i : String) (b : BookData)
    (h : BookEnricher.fetch_google_books env.google i = some b) :
    BookEnricher.get_book_data env bn i = (some b, [Event.primaryCall]) ∧
    (∀ s, Event.fallbackCall s ∉ (BookEnricher.get_book_data env bn i).2) ∧
    (∀ cs, Event.promptShown cs ∉ (BookEnricher.get_book_data env bn i).2) := by
  have heq : BookEnricher.get_book_data env bn i
      = (some b, [Event.primaryCall]) := by
    unfold BookEnricher.get_book_data
    rw [h]
  refine ⟨heq, ?_, ?_⟩ <;> intro x <;> rw [heq] <;> simp

/-- Witness for C2 at the concrete primary hit `envPrimaryHit`. -/
theorem C2_witness :
    BookEnricher.get_book_data envPrimaryHit "1984" "9780451524935"
      = (some (bookPrimary "9780451524935"), [Event.primaryCall]) :=
  (C2_primary_short_circuit envPrimaryHit "1984" "9780451524935"
    (bookPrimary "9780451524935") (by decide)).1

/-- C3: a query missed by the primary adapter and returned empty by every
fallback adapter is resolved as skip, and the run's effect on the output
file is exactly that of the run without that query: no record for it is
appended and the persisted ledger is unchanged with respect to it. -/
theorem C3_all_empty_skips_and_preserves_ledger (oracle : Oracle) (r : InRow)
    (df_in : List InRow) (f : Option (List OutRow))
    (h1 : BookEnricher.fetch_google_books
      (oracle r.book_name r.isbn.astype_str).google r.isbn.astype_str = none)
    (h2 : GoodreadsSource.search
      (oracle r.book_name r.isbn.astype_str).floatOfString
      (oracle r.book_name r.isbn.astype_str).goodreads
      r.book_name r.isbn.astype_str = [])
    (h3 : WorldCatSource.search (oracle r.book_name r.isbn.astype_str).worldcat
      r.book_name r.isbn.astype_str = []) :
    BookEnricher.get_book_data (oracle r.book_name r.isbn.astype_str)
      r.book_name r.isbn.astype_str = (none, BookEnricher.fallbackTrace) ∧
    BookEnricher.fileAfter oracle df_in f
      = BookEnricher.fileAfter oracle (df_in.filter (fun x => x ≠ r)) f := by
  have hskip := get_book_data_skip (oracle r.book_name r.isbn.astype_str)
    r.book_name r.isbn.astype_str h1 h2 h3
  exact ⟨hskip, fileAfter_erase_skip oracle r df_in f (by rw [hskip])⟩

/-- Witness for C3: under `oracle0` every source misses for `rowSkip`. -/
theorem C3_witness :
    BookEnricher.get_book_data (oracle0 rowSkip.book_name rowSkip.isbn.astype_str)
      rowSkip.book_name rowSkip.isbn.astype_str
      = (none, BookEnricher.fallbackTrace) ∧
    BookEnricher.fileAfter oracle0 [rowSkip] (some [])
      = BookEnricher.fileAfter oracle0
          ([rowSkip].filter (fun x => x ≠ rowSkip)) (some []) :=
  C3_all_empty_skips_and_preserves_ledger oracle0 rowSkip [rowSkip] (some [])
    rfl rfl rfl

/-- C4: a transport error, a non-success status, or an exception while
extracting items is absorbed at each adapter boundary: the fallback
adapters return the empty list and the primary adapter returns `none`;
nothing propagates. -/
theorem C4_adapter_failures_absorbed (fp : String → Option Rat)
    (bn i : String) (status : Nat) (gitems : List GoodreadsItem)
    (witems : List WorldCatItem) (gbody : GoogleBody)
    (hs : status ≠ 200) :
    GoodreadsSource.search fp .exn bn i = [] ∧
    GoodreadsSource.search fp (.resp status gitems) bn i = [] ∧
    (goodreadsRows fp i (gitems.take MAX_RESULTS_PER_SOURCE) = .error () →
      GoodreadsSource.search fp (.resp 200 gitems) bn i = []) ∧
    WorldCatSource.search .exn bn i = [] ∧
    WorldCatSource.search (.resp status witems) bn i = [] ∧
    BookEnricher.fetch_google_books .exn i = none ∧
    BookEnricher.fetch_google_books (.resp status gbody) i = none := by
  refine ⟨rfl, ?_, ?_, rfl, ?_, rfl, ?_⟩
  · simp [GoodreadsSource.search, hs]
  · intro herr
    simp [GoodreadsSource.search, herr]
  · simp [WorldCatSource.search, hs]
  · simp [BookEnricher.fetch_google_books, hs]

/-- Witness for C4 at status 500 and empty bodies. -/
theorem C4_witness :
    GoodreadsSource.search (fun _ => (none : Option Rat)) (.resp 500 []) "x" "1"
        = [] ∧
    WorldCatSource.search (.resp 500 []) "x" "1" = [] ∧
    BookEnricher.fetch_google_books (.resp 500 {}) "1" = none :=
  ⟨(C4_adapter_failures_absorbed (fun _ => none) "x" "1" 500 [] [] {}
      (by decide)).2.1,
   (C4_adapter_failures_absorbed (fun _ => none) "x" "1" 500 [] [] {}
      (by decide)).2.2.2.2.1,
   (C4_adapter_failures_absorbed (fun _ => none) "x" "1" 500 [] [] {}
      (by decide)).2.2.2.2.2.2⟩

/-- C5: the aggregated fallback sequence is exactly the Goodreads results
followed by the WorldCat results, each adapter contributing at most
`MAX_RESULTS_PER_SOURCE` (3) candidates, in each adapter's own order. -/
theorem C5_aggregator_cap_and_order (env : Env) (bn i : String) :
    BookEnricher.all_results env bn i =
      GoodreadsSource.search env.floatOfString env.goodreads bn i ++
      WorldCatSource.search env.worldcat bn i ∧
    (GoodreadsSource.search env.floatOfString env.goodreads bn i).length
      ≤ MAX_RESULTS_PER_SOURCE ∧
    (WorldCatSource.search env.worldcat bn i).length ≤ MAX_RESULTS_PER_SOURCE :=
  ⟨rfl, goodreads_search_length env.floatOfString env.goodreads bn i,
    worldcat_search_length env.worldcat bn i⟩

/-- C6: re-running the pipeline over the same input and the same oracle is
idempotent on the output file, and when every input identifier is already
in the ledger the pending set is empty, the run is a no-op and nothing is
written. -/
theorem C6_merge_idempotent (oracle : Oracle) (df_in : List InRow)
    (f : Option (List OutRow)) :
    BookEnricher.fileAfter oracle df_in (BookEnricher.fileAfter oracle df_in f)
      = BookEnricher.fileAfter oracle df_in f ∧
    ∀ L, f = some L →
      (∀ r ∈ df_in, ledgerHas L r.isbn.astype_str = true) →
      new_books df_in L = [] ∧
      BookEnricher.process_books oracle df_in false f
        = BookEnricher.RunOutcome.noWrite ∧
      BookEnricher.fileAfter oracle df_in f = f := by
  refine ⟨fileAfter_fileAfter oracle df_in f, ?_⟩
  rintro L rfl hall
  have hpend : new_books df_in L = [] := by
    apply List.filter_eq_nil_iff.mpr
    intro r hr
    simp [hall r hr]
  have hnw : BookEnricher.process_books oracle df_in false (some L)
      = BookEnricher.RunOutcome.noWrite := by
    rw [process_books_some, hpend]
    rfl
  exact ⟨hpend, hnw, by simp [BookEnricher.fileAfter, hnw]⟩

/-- Witness for C6: one input row whose identifier is already in the
ledger. -/
theorem C6_witness :
    BookEnricher.fileAfter oracle0 [rowSkip]
        (BookEnricher.fileAfter oracle0 [rowSkip]
          (some [BookData.toOutRow bookHit1]))
      = BookEnricher.fileAfter oracle0 [rowSkip]
          (some [BookData.toOutRow bookHit1]) ∧
    new_books [rowSkip] [BookData.toOutRow bookHit1] = [] ∧
    BookEnricher.process_books oracle0 [rowSkip] false
        (some [BookData.toOutRow bookHit1])
      = BookEnricher.RunOutcome.noWrite ∧
    BookEnricher.fileAfter oracle0 [rowSkip] (some [BookData.toOutRow bookHit1])
      = some [BookData.toOutRow bookHit1] :=
  ⟨(C6_merge_idempotent oracle0 [rowSkip] (some [BookData.toOutRow bookHit1])).1,
   (C6_merge_idempotent oracle0 [rowSkip] (some [BookData.toOutRow bookHit1])).2
     [BookData.toOutRow bookHit1] rfl (by decide)⟩

/-- C7: on primary miss with a non-empty aggregate, the prompt lists the
candidates in aggregation order, each summarised from its title, authors,
year and source, followed by the explicit skip entry; the outcome is one
of the listed candidates or skip; a cancelled prompt yields skip. -/
theorem C7_disambiguation_contract (env : Env) (bn i : String)
    (hmiss : BookEnricher.fetch_google_books env.google i = none)
    (hne : BookEnricher.all_results env bn i ≠ []) :
    (BookEnricher.get_book_data env bn i).2
      = BookEnricher.fallbackTrace ++
        [Event.promptShown ((BookEnricher.all_results env bn i).map choiceLine
          ++ ["Skip this book"])] ∧
    (∀ b, choiceLine b
      = b.book_name ++ " by " ++ b.authors ++ " (" ++ b.year ++ ") - from "
        ++ b.source) ∧
    ((BookEnricher.get_book_data env bn i).1 = none ∨
      ∃ b ∈ BookEnricher.all_results env bn i,
        (BookEnricher.get_book_data env bn i).1 = some b) ∧
    (env.decision = Decision.cancelled →
      (BookEnricher.get_book_data env bn i).1 = none) := by
  have hie : (BookEnricher.all_results env bn i).isEmpty = false := by
    rw [List.isEmpty_eq_false_iff_exists_mem]
    rcases List.exists_mem_of_ne_nil _ hne with ⟨b, hb⟩
    exact ⟨b, hb⟩
  have hbody : BookEnricher.get_book_data env bn i
      = (match env.decision with
         | .cancelled =>
           (none, BookEnricher.fallbackTrace ++
             [Event.promptShown ((BookEnricher.all_results env bn i).map choiceLine
               ++ ["Skip this book"])])
         | .pick k =>
           (((BookEnricher.all_results env bn i).map some ++ [none]).getD k none,
            BookEnricher.fallbackTrace ++
             [Event.promptShown ((BookEnricher.all_results env bn i).map choiceLine
               ++ ["Skip this book"])])) := by
    simp only [BookEnricher.get_book_data, hmiss, hie]
    rfl
  cases hd : env.decision with
  | cancelled =>
    rw [hd] at hbody
    refine ⟨by rw [hbody], fun b => rfl, Or.inl (by rw [hbody]), fun _ => by rw [hbody]⟩
  | pick k =>
    rw [hd] at hbody
    refine ⟨by rw [hbody], fun b => rfl, ?_, ?_⟩
    · cases hres : ((BookEnricher.all_results env bn i).map some ++ [none]).getD k none with
      | none => exact Or.inl (by rw [hbody]; exact hres)
      | some b =>
        exact Or.inr ⟨b, mem_of_choice_getD _ _ _ hres, by rw [hbody]; exact hres⟩
    · intro hc
      cases hc

/-- Witness for C7 at `envFallback` (one Goodreads candidate, pick 0). -/
theorem C7_witness :
    (BookEnricher.get_book_data envFallback "x" "1").2
      = BookEnricher.fallbackTrace ++
        [Event.promptShown
          ((BookEnricher.all_results envFallback "x" "1").map choiceLine
            ++ ["Skip this book"])] :=
  (C7_disambiguation_contract envFallback "x" "1" rfl (by decide)).1

/-- C8: on primary miss the orchestrator performs exactly one rate-limit
sleep per fallback adapter invoked, each sequenced directly after that
adapter's call and before the next one (including one after the last
adapter); the rest of the trace holds no further adapter call or sleep. -/
theorem C8_rate_limit_between_adapters (env : Env) (bn i : String)
    (h : BookEnricher.fetch_google_books env.google i = none) :
    ∃ tail,
      (BookEnricher.get_book_data env bn i).2 =
        [Event.primaryCall,
         Event.fallbackCall "goodreads", Event.sleep RATE_LIMIT_DELAY,
         Event.fallbackCall "worldcat", Event.sleep RATE_LIMIT_DELAY] ++ tail ∧
      (∀ s, Event.fallbackCall s ∉ tail) ∧ (∀ n, Event.sleep n ∉ tail) := by
  simp only [BookEnricher.get_book_data, h]
  by_cases hie : (BookEnricher.all_results env bn i).isEmpty
  · refine ⟨[], ?_, by simp, by simp⟩
    simp only [hie]
    rfl
  · rw [Bool.not_eq_true] at hie
    refine ⟨[Event.promptShown ((BookEnricher.all_results env bn i).map choiceLine
      ++ ["Skip this book"])], ?_, by simp, by simp⟩
    simp only [hie]
    cases env.decision <;> rfl

/-- Witness for C8 at `envAllMiss`. -/
theorem C8_witness :
    ∃ tail,
      (BookEnricher.get_book_data envAllMiss "x" "1").2 =
        [Event.primaryCall,
         Event.fallbackCall "goodreads", Event.sleep RATE_LIMIT_DELAY,
         Event.fallbackCall "worldcat", Event.sleep RATE_LIMIT_DELAY] ++ tail ∧
      (∀ s, Event.fallbackCall s ∉ tail) ∧ (∀ n, Event.sleep n ∉ tail) :=
  C8_rate_limit_between_adapters envAllMiss "x" "1" rfl

/-- C9: every candidate produced by any of the three adapters carries the
query's identifier unchanged in its isbn field. -/
theorem C9_candidates_carry_query_isbn (fp : String → Option Rat)
    (genv : HttpOutcome (List GoodreadsItem))
    (wenv : HttpOutcome (List WorldCatItem)) (penv : HttpOutcome GoogleBody)
    (bn i : String) (b : BookData) :
    (b ∈ GoodreadsSource.search fp genv bn i → b.isbn = i) ∧
    (b ∈ WorldCatSource.search wenv bn i → b.isbn = i) ∧
    (BookEnricher.fetch_google_books penv i = some b → b.isbn = i) :=
  ⟨goodreads_search_isbn fp genv bn i b, worldcat_search_isbn wenv bn i b,
   fetch_google_books_isbn penv i b⟩

/-- Witness for C9 on concrete hits of all three adapters. -/
theorem C9_witness :
    (bookFallback "1").isbn = "1" ∧
    (worldcatBook "1" wcTitle1 wcItem1).isbn = "1" ∧
    bookHit1.isbn = "1" :=
  ⟨(C9_candidates_carry_query_isbn envFallback.floatOfString
      envFallback.goodreads .exn .exn "x" "1" (bookFallback "1")).1 (by decide),
   (C9_candidates_carry_query_isbn (fun _ => none) .exn (.resp 200 [wcItem1])
      .exn "x" "1" (worldcatBook "1" wcTitle1 wcItem1)).2.1 (by decide),
   (C9_candidates_carry_query_isbn (fun _ => none) .exn .exn envHit1.google
      "x" "1" bookHit1).2.2 (by decide)⟩

/-- C10 counterexample: two input queries share identifier "1"; the first
is resolved as skip and the second resolves from the primary source.  The
skipped query's identifier, absent from the prior ledger, is in the final
ledger, and the query is not pending on a second run over the same input:
the claim fails at this input. -/
theorem C10_counterexample :
    (BookEnricher.get_book_data (oracleDup "a" "1") "a" "1").1 = none ∧
    ledgerHas [] "1" = false ∧
    BookEnricher.fileAfter oracleDup [rowSkip, rowHit] (some [])
      = some [BookData.toOutRow bookHit1] ∧
    ledgerHas [BookData.toOutRow bookHit1]
      (Cell.astype_str rowSkip.isbn) = true ∧
    new_books [rowSkip, rowHit] [BookData.toOutRow bookHit1] = [] := by
  refine ⟨rfl, rfl, ?_, rfl, rfl⟩
  decide

/-- C10 amended: only non-skip results are appended, so a query resolved as
skip in a run in which no query carrying the same identifier (as text)
resolves to a record leaves no trace: its identifier is absent from the
final ledger when it was absent beforehand, and the query is pending
again on a subsequent run over the same input. -/
theorem C10_skip_leaves_no_trace (oracle : Oracle) (df_in : List InRow)
    (df_out : List OutRow) (r : InRow)
    (hr : r ∈ df_in)
    (hsame : ∀ x ∈ df_in, x.isbn.astype_str = r.isbn.astype_str →
      (BookEnricher.get_book_data (oracle x.book_name x.isbn.astype_str)
        x.book_name x.isbn.astype_str).1 = none)
    (hnew : ledgerHas df_out r.isbn.astype_str = false) :
    ∃ L, BookEnricher.fileAfter oracle df_in (some df_out) = some L ∧
      ledgerHas L r.isbn.astype_str = false ∧
      r ∈ new_books df_in L := by
  by_cases h1 : (new_books df_in df_out).isEmpty
  · refine ⟨df_out, ?_, hnew, (mem_new_books _ _ _).mpr ⟨hr, hnew⟩⟩
    have hnw : BookEnricher.process_books oracle df_in false (some df_out)
        = BookEnricher.RunOutcome.noWrite := by
      rw [process_books_some]
      simp only [h1]
      rfl
    simp [BookEnricher.fileAfter, hnw]
  · by_cases h2 :
      (BookEnricher.runResults oracle (new_books df_in df_out)).isEmpty
    · refine ⟨df_out, ?_, hnew, (mem_new_books _ _ _).mpr ⟨hr, hnew⟩⟩
      have hnw : BookEnricher.process_books oracle df_in false (some df_out)
          = BookEnricher.RunOutcome.noWrite := by
        rw [process_books_some]
        rw [Bool.not_eq_true] at h1
        simp only [h1, h2]
        rfl
      simp [BookEnricher.fileAfter, hnw]
    · have hL2 : ledgerHas
          ((BookEnricher.runResults oracle (new_books df_in df_out)).map
            BookData.toOutRow) r.isbn.astype_str = false :=
        ledgerHas_runResults_false oracle _ _ (fun x hx hxs =>
          hsame x ((mem_new_books _ _ _).mp hx).1 hxs)
      have hLall : ledgerHas (df_out ++
          (BookEnricher.runResults oracle (new_books df_in df_out)).map
            BookData.toOutRow) r.isbn.astype_str = false := by
        rw [ledgerHas_append, hnew, hL2]
        rfl
      refine ⟨df_out ++
          (BookEnricher.runResults oracle (new_books df_in df_out)).map
            BookData.toOutRow, ?_, hLall,
        (mem_new_books _ _ _).mpr ⟨hr, hLall⟩⟩
      have hw : BookEnricher.process_books oracle df_in false (some df_out)
          = BookEnricher.RunOutcome.wrote (df_out ++
            (BookEnricher.runResults oracle (new_books df_in df_out)).map
              BookData.toOutRow) := by
        rw [process_books_some]
        rw [Bool.not_eq_true] at h1 h2
        simp only [h1, h2]
        rfl
      simp [BookEnricher.fileAfter, hw]

/-- Witness for the amended C10: a single all-miss query over the empty
ledger. -/
theorem C10_witness :
    ∃ L, BookEnricher.fileAfter oracle0 [rowSkip] (some []) = some L ∧
      ledgerHas L rowSkip.isbn.astype_str = false ∧
      rowSkip ∈ new_books [rowSkip] L :=
  C10_skip_leaves_no_trace oracle0 [rowSkip] [] rowSkip
    (List.mem_cons_self rowSkip []) (by decide) rfl

end BooksScraping
